import Mathlib

/-!
Shallow embedding of `src/backend/decide.py` (launch go/no-go decision engine).

Numbers that are Python floats are modelled as rationals (`ℚ`); Python ints as
`ℤ`.  Python string interpolation of numbers (`f"...{x:.1f}..."`) is modelled by
computable rendering functions (`fmt1`, `fmt0`, `pyStr`); no claim below depends
on the exact digits these produce, only on the fixed template text around them.
The async orchestrator `make_decision` is embedded as a pure function
parameterised by the three fetch capabilities and by the (externally configured)
launch-site registry, and it additionally returns the list of fetch events it
issued, so that "no data fetching occurs" is an provable statement.
-/

/-- `WeatherObservation` record: `get_weather` result shape
(`wind_speed_kn`, `precipitation_mm`, `cloud_ceiling_ft`, `temperature_c`). -/
structure Weather where
  wind_speed_kn : ℚ
  precipitation_mm : ℚ
  cloud_ceiling_ft : ℚ
  temperature_c : ℚ

/-- `SpaceWeatherObservation` record: `get_space_weather` result shape. -/
structure SpaceWeather where
  kp_index : ℚ
  has_solar_storm : Bool

/-- `ConjunctionAssessment` record: `get_conjunction_risk` result shape. -/
structure Conjunction where
  has_high_risk : Bool
  close_approaches : ℤ

/-- Site limits record (`site["limits"]` in `decide.py`). -/
structure Limits where
  max_wind_kn : ℚ
  max_precipitation_mm : ℚ
  max_cloud_ceiling_ft : ℚ
  max_temp_c : ℚ
  min_temp_c : ℚ

/-- Wind band of `calculate_risk_score` (decide.py lines 24-30). -/
def windPoints (w : Weather) (l : Limits) : ℤ :=
  let wind_ratio := w.wind_speed_kn / l.max_wind_kn
  if wind_ratio ≥ 1 then 40
  else if wind_ratio ≥ 0.8 then 20
  else if wind_ratio ≥ 0.6 then 10
  else 0

/-- Precipitation band of `calculate_risk_score` (decide.py lines 33-41). -/
def precipPoints (w : Weather) (l : Limits) : ℤ :=
  let precip_ratio := w.precipitation_mm / l.max_precipitation_mm
  if precip_ratio ≥ 5 then 50
  else if precip_ratio ≥ 2 then 35
  else if precip_ratio ≥ 1 then 25
  else if precip_ratio ≥ 0.7 then 15
  else 0

/-- Cloud-ceiling band of `calculate_risk_score` (decide.py lines 44-51). -/
def ceilingPoints (w : Weather) (l : Limits) : ℤ :=
  if w.cloud_ceiling_ft < 1000 then 40
  else if w.cloud_ceiling_ft < 2000 then 30
  else if w.cloud_ceiling_ft < 3000 then 20
  else if w.cloud_ceiling_ft < l.max_cloud_ceiling_ft then 10
  else 0

/-- Temperature band of `calculate_risk_score` (decide.py lines 53-57). -/
def tempPoints (w : Weather) (l : Limits) : ℤ :=
  if w.temperature_c > l.max_temp_c ∨ w.temperature_c < l.min_temp_c then 25
  else if w.temperature_c > l.max_temp_c - 5 ∨ w.temperature_c < l.min_temp_c + 5 then 10
  else 0

/-- Kp-index band of `calculate_risk_score` (decide.py lines 60-66). -/
def kpPoints (sw : SpaceWeather) : ℤ :=
  if sw.kp_index ≥ 7 then 30
  else if sw.kp_index ≥ 5 then 15
  else if sw.kp_index ≥ 3 then 5
  else 0

/-- Solar-storm contribution of `calculate_risk_score` (decide.py lines 68-69). -/
def stormPoints (sw : SpaceWeather) : ℤ :=
  if sw.has_solar_storm then 20 else 0

/-- Conjunction band of `calculate_risk_score` (decide.py lines 72-75). -/
def conjPoints (c : Conjunction) : ℤ :=
  if c.has_high_risk then 40
  else if c.close_approaches > 0 then 10
  else 0

/-- `calculate_risk_score` (decide.py lines 10-77): the sequential `score += ...`
accumulation over the seven contribution groups, then `min(score, 100)`. -/
def calculate_risk_score (w : Weather) (sw : SpaceWeather) (c : Conjunction)
    (l : Limits) : ℤ :=
  min (windPoints w l + precipPoints w l + ceilingPoints w l + tempPoints w l
    + kpPoints sw + stormPoints sw + conjPoints c) 100

/-- `determine_verdict` (decide.py lines 80-87). -/
def determine_verdict (risk_score : ℤ) : String :=
  if risk_score ≥ 70 then "NO-GO"
  else if risk_score ≥ 40 then "MARGINAL"
  else "GO"

/-- Python `f"{q:.1f}"`, modelled by rounding to one decimal place. -/
def fmt1 (q : ℚ) : String :=
  let n : ℤ := round (q * 10)
  (if n < 0 then "-" else "") ++ toString (n.natAbs / 10) ++ "." ++ toString (n.natAbs % 10)

/-- Python `f"{q:.0f}"`, modelled by rounding to an integer. -/
def fmt0 (q : ℚ) : String :=
  toString (round q : ℤ)

/-- Python `f"{q}"` (plain `str()` of a number), modelled as the canonical
rational rendering. -/
def pyStr (q : ℚ) : String :=
  toString q

/-- Wind issue string of `generate_explanation` (decide.py line 102). -/
def windIssue (w : Weather) (l : Limits) : String :=
  "Wind speed " ++ fmt1 w.wind_speed_kn ++ " kn approaching limit "
    ++ pyStr l.max_wind_kn ++ " kn"

/-- Precipitation issue string of `generate_explanation` (decide.py line 105). -/
def precipIssue (w : Weather) (l : Limits) : String :=
  "Precipitation " ++ fmt1 w.precipitation_mm ++ " mm near limit "
    ++ pyStr l.max_precipitation_mm ++ " mm"

/-- Cloud-ceiling issue string of `generate_explanation` (decide.py line 108). -/
def ceilingIssue (w : Weather) (l : Limits) : String :=
  "Cloud ceiling " ++ fmt0 w.cloud_ceiling_ft ++ " ft below limit "
    ++ pyStr l.max_cloud_ceiling_ft ++ " ft"

/-- High-temperature issue string of `generate_explanation` (decide.py line 111). -/
def tempHighIssue (w : Weather) : String :=
  "Temperature " ++ fmt1 w.temperature_c ++ "°C approaching upper limit"

/-- Low-temperature issue string of `generate_explanation` (decide.py line 114). -/
def tempLowIssue (w : Weather) : String :=
  "Temperature " ++ fmt1 w.temperature_c ++ "°C approaching lower limit"

/-- Kp issue string of `generate_explanation` (decide.py line 118). -/
def kpIssue (sw : SpaceWeather) : String :=
  "Elevated Kp index at " ++ fmt0 sw.kp_index ++ " (geomagnetic storm conditions)"

/-- Solar-storm issue string of `generate_explanation` (decide.py line 121). -/
def stormIssue : String :=
  "Active solar storm detected"

/-- Conjunction issue string of `generate_explanation` (decide.py line 125). -/
def conjIssue : String :=
  "High debris conjunction risk detected"

/-- The `issues` list built by `generate_explanation` (decide.py lines 98-125):
eight conditional appends in source order. -/
def explanationIssues (w : Weather) (sw : SpaceWeather) (c : Conjunction)
    (l : Limits) : List String :=
  (if w.wind_speed_kn > l.max_wind_kn * 0.8 then [windIssue w l] else [])
    ++ (if w.precipitation_mm > l.max_precipitation_mm * 0.5 then [precipIssue w l] else [])
    ++ (if w.cloud_ceiling_ft < l.max_cloud_ceiling_ft then [ceilingIssue w l] else [])
    ++ (if w.temperature_c > l.max_temp_c - 5 then [tempHighIssue w] else [])
    ++ (if w.temperature_c < l.min_temp_c + 5 then [tempLowIssue w] else [])
    ++ (if sw.kp_index ≥ 5 then [kpIssue sw] else [])
    ++ (if sw.has_solar_storm then [stormIssue] else [])
    ++ (if c.has_high_risk then [conjIssue] else [])

/-- Python `sep.join(xs)`. -/
def joinSep (sep : String) : List String → String
  | [] => ""
  | [x] => x
  | x :: xs => x ++ sep ++ joinSep sep xs

/-- `generate_explanation` (decide.py lines 90-130).  The `risk_score` argument
is accepted, as in the source, and never used. -/
def generate_explanation (w : Weather) (sw : SpaceWeather) (c : Conjunction)
    (l : Limits) (risk_score : ℤ) : String :=
  let issues := explanationIssues w sw c l
  if issues = [] then "All parameters within acceptable limits for launch"
  else joinSep "; " issues

/-- The `citations` list built by `get_rule_citations` before the sentinel check
(decide.py lines 140-155): five conditional appends in source order. -/
def citationBase (w : Weather) (sw : SpaceWeather) (c : Conjunction)
    (l : Limits) : List String :=
  (if w.cloud_ceiling_ft < l.max_cloud_ceiling_ft
      then ["NASA-STD-4010A §4.1.8 (Thick Cloud Layers)"] else [])
    ++ (if w.wind_speed_kn > l.max_wind_kn * 0.8
      then ["Vehicle SOP: Pad Wind Limit " ++ pyStr l.max_wind_kn ++ " kn"] else [])
    ++ (if w.precipitation_mm > l.max_precipitation_mm * 0.5
      then ["NASA-STD-4010A §4.1.10 (Precipitation)"] else [])
    ++ (if sw.kp_index ≥ 5
      then ["SWPC Kp advisory - Geomagnetic Storm Watch"] else [])
    ++ (if c.has_high_risk
      then ["COLA (Collision Avoidance) Analysis - High Risk"] else [])

/-- `get_rule_citations` (decide.py lines 133-160): the conditional citation list,
with the sentinel appended when it is empty. -/
def get_rule_citations (w : Weather) (sw : SpaceWeather) (c : Conjunction)
    (l : Limits) : List String :=
  let citations := citationBase w sw c l
  if citations = [] then ["All parameters nominal"] else citations

/-- A launch site entry of the registry: coordinates plus embedded limits. -/
structure Site where
  lat : ℚ
  lon : ℚ
  limits : Limits

/-- The `data` field of a successful decision: the raw input snapshots. -/
structure DecisionData where
  weather : Weather
  space_weather : SpaceWeather
  conjunction : Conjunction

/-- The decision record returned by `make_decision`.  The unknown-site error
branch of the source returns a dict without a `"data"` key; this is modelled by
`data = none`. -/
structure Decision where
  verdict : String
  risk_score : ℤ
  why : String
  rule_citations : List String
  data : Option DecisionData

/-- One external data fetch performed by the orchestrator. -/
inductive FetchEvent
  | weather
  | spaceWeather
  | conjunctionRisk

/-- Python `LAUNCH_SITES[code]` / `code in LAUNCH_SITES` as lookup in an
association list (the registry itself lives in `sites.py`, outside the core,
and is passed in; see the spec, which requires the site table to be an injected
read-only lookup table). -/
def findSite : List (String × Site) → String → Option Site
  | [], _ => none
  | (k, v) :: rest, code => if k = code then some v else findSite rest code

/-- `make_decision` (decide.py lines 163-206), embedded as a pure function over
the three fetch capabilities and the site registry.  `τ` is the opaque type of
`launch_time`.  The second component of the result is the list of fetch events
the orchestrator issued (the source awaits weather, then space weather, then
conjunction risk; the unknown-site branch returns before any fetch). -/
def make_decision {τ : Type} (sites : List (String × Site))
    (get_weather : ℚ → ℚ → τ → Weather)
    (get_space_weather : Unit → SpaceWeather)
    (get_conjunction_risk : ℚ → ℚ → τ → Conjunction)
    (site_code : String) (launch_time : τ) : Decision × List FetchEvent :=
  match findSite sites site_code with
  | none =>
      ({ verdict := "ERROR"
         risk_score := 100
         why := "Unknown launch site: " ++ site_code
         rule_citations := []
         data := none }, [])
  | some site =>
      let limits := site.limits
      let weather := get_weather site.lat site.lon launch_time
      let space_weather := get_space_weather ()
      let conjunction := get_conjunction_risk site.lat site.lon launch_time
      let risk_score := calculate_risk_score weather space_weather conjunction limits
      let verdict := determine_verdict risk_score
      let explanation := generate_explanation weather space_weather conjunction limits risk_score
      let citations := get_rule_citations weather space_weather conjunction limits
      ({ verdict := verdict
         risk_score := risk_score
         why := explanation
         rule_citations := citations
         data := some ⟨weather, space_weather, conjunction⟩ },
       [FetchEvent.weather, FetchEvent.spaceWeather, FetchEvent.conjunctionRisk])

/-- Python `/` as the source executes it: division by zero raises, modelled as
`none`. -/
def qdiv? (a b : ℚ) : Option ℚ :=
  if b = 0 then none else some (a / b)

/-- `calculate_risk_score` with the two ratio divisions guarded: the error
branch is taken exactly when Python would raise `ZeroDivisionError`. -/
def calculate_risk_score_checked (w : Weather) (sw : SpaceWeather)
    (c : Conjunction) (l : Limits) : Option ℤ :=
  (qdiv? w.wind_speed_kn l.max_wind_kn).bind fun wind_ratio =>
  (qdiv? w.precipitation_mm l.max_precipitation_mm).bind fun precip_ratio =>
  some (min ((if wind_ratio ≥ 1 then 40
        else if wind_ratio ≥ 0.8 then 20
        else if wind_ratio ≥ 0.6 then 10
        else (0 : ℤ))
      + (if precip_ratio ≥ 5 then 50
        else if precip_ratio ≥ 2 then 35
        else if precip_ratio ≥ 1 then 25
        else if precip_ratio ≥ 0.7 then 15
        else 0)
      + ceilingPoints w l + tempPoints w l + kpPoints sw + stormPoints sw
      + conjPoints c) 100)

lemma windPoints_nonneg (w : Weather) (l : Limits) : 0 ≤ windPoints w l := by
  simp only [windPoints]
  split_ifs <;> norm_num

lemma precipPoints_nonneg (w : Weather) (l : Limits) : 0 ≤ precipPoints w l := by
  simp only [precipPoints]
  split_ifs <;> norm_num

lemma ceilingPoints_nonneg (w : Weather) (l : Limits) : 0 ≤ ceilingPoints w l := by
  unfold ceilingPoints
  split_ifs <;> norm_num

lemma tempPoints_nonneg (w : Weather) (l : Limits) : 0 ≤ tempPoints w l := by
  unfold tempPoints
  split_ifs <;> norm_num

lemma kpPoints_nonneg (sw : SpaceWeather) : 0 ≤ kpPoints sw := by
  unfold kpPoints
  split_ifs <;> norm_num

lemma stormPoints_nonneg (sw : SpaceWeather) : 0 ≤ stormPoints sw := by
  unfold stormPoints
  split_ifs <;> norm_num

lemma conjPoints_nonneg (c : Conjunction) : 0 ≤ conjPoints c := by
  unfold conjPoints
  split_ifs <;> norm_num

lemma bandSum_nonneg (w : Weather) (sw : SpaceWeather) (c : Conjunction)
    (l : Limits) :
    0 ≤ windPoints w l + precipPoints w l + ceilingPoints w l + tempPoints w l
      + kpPoints sw + stormPoints sw + conjPoints c := by
  have h1 := windPoints_nonneg w l
  have h2 := precipPoints_nonneg w l
  have h3 := ceilingPoints_nonneg w l
  have h4 := tempPoints_nonneg w l
  have h5 := kpPoints_nonneg sw
  have h6 := stormPoints_nonneg sw
  have h7 := conjPoints_nonneg c
  omega

/-- C1: for all inputs (with strictly positive limit fields), the risk score is
an integer in [0,100], equal to the sum of the discrete band points clamped at
100, and never below 0. -/
theorem risk_score_in_range (w : Weather) (sw : SpaceWeather) (c : Conjunction)
    (l : Limits) (hw : 0 < l.max_wind_kn) (hp : 0 < l.max_precipitation_mm) :
    0 ≤ calculate_risk_score w sw c l ∧ calculate_risk_score w sw c l ≤ 100 ∧
    calculate_risk_score w sw c l =
      min (windPoints w l + precipPoints w l + ceilingPoints w l + tempPoints w l
        + kpPoints sw + stormPoints sw + conjPoints c) 100 := by
  refine ⟨?_, ?_, rfl⟩
  · exact le_min (bandSum_nonneg w sw c l) (by norm_num)
  · exact min_le_right _ _

/-- Witness for C1 at a concrete nominal input. -/
theorem risk_score_in_range_witness :
    0 ≤ calculate_risk_score ⟨10, 0, 10000, 20⟩ ⟨2, false⟩ ⟨false, 0⟩
        ⟨30, 32/5, 1500, 35, -1⟩ ∧
    calculate_risk_score ⟨10, 0, 10000, 20⟩ ⟨2, false⟩ ⟨false, 0⟩
        ⟨30, 32/5, 1500, 35, -1⟩ ≤ 100 ∧
    calculate_risk_score ⟨10, 0, 10000, 20⟩ ⟨2, false⟩ ⟨false, 0⟩
        ⟨30, 32/5, 1500, 35, -1⟩ =
      min (windPoints ⟨10, 0, 10000, 20⟩ ⟨30, 32/5, 1500, 35, -1⟩
        + precipPoints ⟨10, 0, 10000, 20⟩ ⟨30, 32/5, 1500, 35, -1⟩
        + ceilingPoints ⟨10, 0, 10000, 20⟩ ⟨30, 32/5, 1500, 35, -1⟩
        + tempPoints ⟨10, 0, 10000, 20⟩ ⟨30, 32/5, 1500, 35, -1⟩
        + kpPoints ⟨2, false⟩ + stormPoints ⟨2, false⟩
        + conjPoints ⟨false, 0⟩) 100 :=
  risk_score_in_range ⟨10, 0, 10000, 20⟩ ⟨2, false⟩ ⟨false, 0⟩
    ⟨30, 32/5, 1500, 35, -1⟩ (by norm_num) (by norm_num)

/-- C2: `determine_verdict` partitions the integers exactly at 40 and 70, with
boundaries inclusive on the lower verdict's threshold; in particular 39 is GO,
40 and 69 are MARGINAL, 70 is NO-GO. -/
theorem verdict_thresholds (s : ℤ) :
    (70 ≤ s → determine_verdict s = "NO-GO") ∧
    (40 ≤ s ∧ s < 70 → determine_verdict s = "MARGINAL") ∧
    (s < 40 → determine_verdict s = "GO") ∧
    determine_verdict 39 = "GO" ∧ determine_verdict 40 = "MARGINAL" ∧
    determine_verdict 69 = "MARGINAL" ∧ determine_verdict 70 = "NO-GO" := by
  refine ⟨?_, ?_, ?_, by decide, by decide, by decide, by decide⟩ <;>
    intro h <;> unfold determine_verdict <;> split_ifs with h1 h2 <;>
      first | rfl | omega

/-- Witness for C2 at the boundary scores 70 and 40. -/
theorem verdict_thresholds_witness :
    determine_verdict 70 = "NO-GO" ∧ determine_verdict 40 = "MARGINAL" :=
  ⟨(verdict_thresholds 70).1 (by norm_num),
   (verdict_thresholds 40).2.1 ⟨by norm_num, by norm_num⟩⟩

/-- C8: under strictly positive limit fields the two ratio divisions inside the
scorer are well-defined, so the guarded embedding returns exactly the
unguarded score; with a zero limit the guarded embedding hits the error
branch (the scorer has no defensive handling of its own). -/
theorem scorer_division_safe (w : Weather) (sw : SpaceWeather)
    (c : Conjunction) (l : Limits) :
    (0 < l.max_wind_kn → 0 < l.max_precipitation_mm →
      calculate_risk_score_checked w sw c l = some (calculate_risk_score w sw c l)) ∧
    (l.max_wind_kn = 0 ∨ l.max_precipitation_mm = 0 →
      calculate_risk_score_checked w sw c l = none) := by
  constructor
  · intro hw hp
    simp [calculate_risk_score_checked, qdiv?, hw.ne', hp.ne',
      calculate_risk_score, windPoints, precipPoints]
  · intro h
    rcases h with h | h
    · simp [calculate_risk_score_checked, qdiv?, h]
    · by_cases h' : l.max_wind_kn = 0 <;>
        simp [calculate_risk_score_checked, qdiv?, h, h']

/-- Witness for C8 at a concrete input with positive limits. -/
theorem scorer_division_safe_witness :
    calculate_risk_score_checked ⟨35, 0, 10000, 20⟩ ⟨2, false⟩ ⟨false, 0⟩
        ⟨30, 32/5, 1500, 35, -1⟩
      = some (calculate_risk_score ⟨35, 0, 10000, 20⟩ ⟨2, false⟩ ⟨false, 0⟩
        ⟨30, 32/5, 1500, 35, -1⟩) :=
  (scorer_division_safe ⟨35, 0, 10000, 20⟩ ⟨2, false⟩ ⟨false, 0⟩
    ⟨30, 32/5, 1500, 35, -1⟩).1 (by norm_num) (by norm_num)

/-- C10: `generate_explanation` never reads its `risk_score` argument: any two
risk-score values give the identical output string. -/
theorem explanation_ignores_risk_score (w : Weather) (sw : SpaceWeather)
    (c : Conjunction) (l : Limits) (r₁ r₂ : ℤ) :
    generate_explanation w sw c l r₁ = generate_explanation w sw c l r₂ := rfl

/-- C3: for every site code absent from the registry, `make_decision` returns
the ERROR record (verdict ERROR, score 100, message naming the unknown code,
empty citation list, no data) and issues no fetch at all. -/
theorem unknown_site_error {τ : Type} (sites : List (String × Site))
    (gw : ℚ → ℚ → τ → Weather) (gsw : Unit → SpaceWeather)
    (gcr : ℚ → ℚ → τ → Conjunction) (site_code : String) (launch_time : τ)
    (h : findSite sites site_code = none) :
    make_decision sites gw gsw gcr site_code launch_time =
      ({ verdict := "ERROR"
         risk_score := 100
         why := "Unknown launch site: " ++ site_code
         rule_citations := []
         data := none }, []) := by
  unfold make_decision
  rw [h]

/-- Witness for C3: the code "XXX" against an empty registry. -/
theorem unknown_site_error_witness :
    make_decision ([] : List (String × Site)) (fun _ _ _ => ⟨0, 0, 0, 0⟩)
        (fun _ => ⟨0, false⟩) (fun _ _ _ => ⟨false, 0⟩) "XXX" () =
      ({ verdict := "ERROR"
         risk_score := 100
         why := "Unknown launch site: " ++ "XXX"
         rule_citations := []
         data := none }, []) :=
  unknown_site_error [] (fun _ _ _ => ⟨0, 0, 0, 0⟩) (fun _ => ⟨0, false⟩)
    (fun _ _ _ => ⟨false, 0⟩) "XXX" () rfl

/-- C7 counterexample: the ERROR decision produced for an unknown site carries
no raw input snapshots (`data = none`), so not every record returned by
`make_decision` contains them. -/
theorem decision_data_cex :
    (make_decision ([] : List (String × Site)) (fun _ _ _ => ⟨0, 0, 0, 0⟩)
        (fun _ => ⟨0, false⟩) (fun _ _ _ => ⟨false, 0⟩) "KSC" ()).1.data
      = none := rfl

/-- C7 amended: a decision for a known site always contains the raw input
snapshots in its `data` field, while the unknown-site ERROR decision contains
none. -/
theorem decision_data_amended {τ : Type} (sites : List (String × Site))
    (gw : ℚ → ℚ → τ → Weather) (gsw : Unit → SpaceWeather)
    (gcr : ℚ → ℚ → τ → Conjunction) (site_code : String) (launch_time : τ) :
    (∀ site : Site, findSite sites site_code = some site →
      (make_decision sites gw gsw gcr site_code launch_time).1.data =
        some ⟨gw site.lat site.lon launch_time, gsw (),
              gcr site.lat site.lon launch_time⟩) ∧
    (findSite sites site_code = none →
      (make_decision sites gw gsw gcr site_code launch_time).1.data = none) := by
  constructor
  · intro site h
    unfold make_decision
    rw [h]
  · intro h
    unfold make_decision
    rw [h]

/-- Witness for C7's amended statement: a one-site registry. -/
theorem decision_data_amended_witness :
    (make_decision [("KSC", ⟨1, 2, ⟨30, 32/5, 1500, 35, -1⟩⟩)]
        (fun _ _ _ => ⟨10, 0, 10000, 20⟩) (fun _ => ⟨2, false⟩)
        (fun _ _ _ => ⟨false, 0⟩) "KSC" ()).1.data =
      some ⟨(fun _ _ _ => (⟨10, 0, 10000, 20⟩ : Weather)) (1 : ℚ) (2 : ℚ) (),
            (fun _ => (⟨2, false⟩ : SpaceWeather)) (),
            (fun _ _ _ => (⟨false, 0⟩ : Conjunction)) (1 : ℚ) (2 : ℚ) ()⟩ :=
  (decision_data_amended [("KSC", ⟨1, 2, ⟨30, 32/5, 1500, 35, -1⟩⟩)]
      (fun _ _ _ => ⟨10, 0, 10000, 20⟩) (fun _ => ⟨2, false⟩)
      (fun _ _ _ => ⟨false, 0⟩) "KSC" ()).1
    ⟨1, 2, ⟨30, 32/5, 1500, 35, -1⟩⟩ rfl

lemma windPoints_mono (w : Weather) (l : Limits) (hl : 0 < l.max_wind_kn)
    (v v' : ℚ) (h : v ≤ v') :
    windPoints {w with wind_speed_kn := v} l ≤
      windPoints {w with wind_speed_kn := v'} l := by
  have hr : v / l.max_wind_kn ≤ v' / l.max_wind_kn := by gcongr
  simp only [windPoints]
  split_ifs <;> linarith

lemma precipPoints_mono (w : Weather) (l : Limits)
    (hl : 0 < l.max_precipitation_mm) (v v' : ℚ) (h : v ≤ v') :
    precipPoints {w with precipitation_mm := v} l ≤
      precipPoints {w with precipitation_mm := v'} l := by
  have hr : v / l.max_precipitation_mm ≤ v' / l.max_precipitation_mm := by gcongr
  simp only [precipPoints]
  split_ifs <;> linarith

lemma ceilingPoints_anti (w : Weather) (l : Limits) (v v' : ℚ) (h : v ≤ v') :
    ceilingPoints {w with cloud_ceiling_ft := v'} l ≤
      ceilingPoints {w with cloud_ceiling_ft := v} l := by
  simp only [ceilingPoints]
  split_ifs <;> linarith

lemma kpPoints_mono (sw : SpaceWeather) (v v' : ℚ) (h : v ≤ v') :
    kpPoints {sw with kp_index := v} ≤ kpPoints {sw with kp_index := v'} := by
  simp only [kpPoints]
  split_ifs <;> linarith

lemma conjPoints_mono_count (c : Conjunction) (n n' : ℤ) (h : n ≤ n') :
    conjPoints {c with close_approaches := n} ≤
      conjPoints {c with close_approaches := n'} := by
  simp only [conjPoints]
  split_ifs <;> omega

lemma stormPoints_flag (sw : SpaceWeather) :
    stormPoints {sw with has_solar_storm := false} ≤
      stormPoints {sw with has_solar_storm := true} := by
  simp [stormPoints]

lemma conjPoints_flag (c : Conjunction) :
    conjPoints {c with has_high_risk := false} ≤
      conjPoints {c with has_high_risk := true} := by
  simp only [conjPoints]
  split_ifs <;> norm_num

/-- C6: with the other inputs and the (strictly positive) limits held fixed,
the risk score is monotonically non-decreasing in wind speed, precipitation,
Kp index, close-approach count, and each boolean flag (false to true), and
monotonically non-increasing in cloud ceiling. -/
theorem risk_score_monotone (w : Weather) (sw : SpaceWeather) (c : Conjunction)
    (l : Limits) (hw : 0 < l.max_wind_kn) (hp : 0 < l.max_precipitation_mm) :
    (∀ v v' : ℚ, v ≤ v' →
      calculate_risk_score {w with wind_speed_kn := v} sw c l ≤
        calculate_risk_score {w with wind_speed_kn := v'} sw c l) ∧
    (∀ v v' : ℚ, v ≤ v' →
      calculate_risk_score {w with precipitation_mm := v} sw c l ≤
        calculate_risk_score {w with precipitation_mm := v'} sw c l) ∧
    (∀ v v' : ℚ, v ≤ v' →
      calculate_risk_score w {sw with kp_index := v} c l ≤
        calculate_risk_score w {sw with kp_index := v'} c l) ∧
    (∀ n n' : ℤ, n ≤ n' →
      calculate_risk_score w sw {c with close_approaches := n} l ≤
        calculate_risk_score w sw {c with close_approaches := n'} l) ∧
    (calculate_risk_score w {sw with has_solar_storm := false} c l ≤
      calculate_risk_score w {sw with has_solar_storm := true} c l) ∧
    (calculate_risk_score w sw {c with has_high_risk := false} l ≤
      calculate_risk_score w sw {c with has_high_risk := true} l) ∧
    (∀ v v' : ℚ, v ≤ v' →
      calculate_risk_score {w with cloud_ceiling_ft := v'} sw c l ≤
        calculate_risk_score {w with cloud_ceiling_ft := v} sw c l) := by
  refine ⟨fun v v' h => ?_, fun v v' h => ?_, fun v v' h => ?_,
    fun n n' h => ?_, ?_, ?_, fun v v' h => ?_⟩ <;>
    unfold calculate_risk_score <;> refine min_le_min ?_ le_rfl
  · have hb := windPoints_mono w l hw v v' h
    have e1 : precipPoints {w with wind_speed_kn := v} l =
        precipPoints {w with wind_speed_kn := v'} l := rfl
    have e2 : ceilingPoints {w with wind_speed_kn := v} l =
        ceilingPoints {w with wind_speed_kn := v'} l := rfl
    have e3 : tempPoints {w with wind_speed_kn := v} l =
        tempPoints {w with wind_speed_kn := v'} l := rfl
    linarith
  · have hb := precipPoints_mono w l hp v v' h
    have e1 : windPoints {w with precipitation_mm := v} l =
        windPoints {w with precipitation_mm := v'} l := rfl
    have e2 : ceilingPoints {w with precipitation_mm := v} l =
        ceilingPoints {w with precipitation_mm := v'} l := rfl
    have e3 : tempPoints {w with precipitation_mm := v} l =
        tempPoints {w with precipitation_mm := v'} l := rfl
    linarith
  · have hb := kpPoints_mono sw v v' h
    have e1 : stormPoints {sw with kp_index := v} =
        stormPoints {sw with kp_index := v'} := rfl
    linarith
  · have hb := conjPoints_mono_count c n n' h
    linarith
  · have hb := stormPoints_flag sw
    have e1 : kpPoints {sw with has_solar_storm := false} =
        kpPoints {sw with has_solar_storm := true} := rfl
    linarith
  · have hb := conjPoints_flag c
    linarith
  · have hb := ceilingPoints_anti w l v v' h
    have e1 : windPoints {w with cloud_ceiling_ft := v} l =
        windPoints {w with cloud_ceiling_ft := v'} l := rfl
    have e2 : precipPoints {w with cloud_ceiling_ft := v} l =
        precipPoints {w with cloud_ceiling_ft := v'} l := rfl
    have e3 : tempPoints {w with cloud_ceiling_ft := v} l =
        tempPoints {w with cloud_ceiling_ft := v'} l := rfl
    linarith

/-- Witness for C6: raising wind speed from 10 kn to 20 kn. -/
theorem risk_score_monotone_witness :
    calculate_risk_score ⟨10, 0, 10000, 20⟩ ⟨2, false⟩ ⟨false, 0⟩
        ⟨30, 32/5, 1500, 35, -1⟩ ≤
      calculate_risk_score ⟨20, 0, 10000, 20⟩ ⟨2, false⟩ ⟨false, 0⟩
        ⟨30, 32/5, 1500, 35, -1⟩ :=
  (risk_score_monotone ⟨10, 0, 10000, 20⟩ ⟨2, false⟩ ⟨false, 0⟩
      ⟨30, 32/5, 1500, 35, -1⟩ (by norm_num) (by norm_num)).1 10 20 (by norm_num)

lemma str_append_ne (p r t : String) (i : ℕ) (hi : i < p.data.length)
    (h : p.data[i]? ≠ t.data[i]?) : p ++ r ≠ t := by
  intro he
  apply h
  have hd := congrArg String.data he
  rw [String.data_append] at hd
  rw [← hd, List.getElem?_append_left hi]

lemma str_ne_of_append (p q r s : String) (i : ℕ) (hp : i < p.data.length)
    (hr : i < r.data.length) (h : p.data[i]? ≠ r.data[i]?) : p ++ q ≠ r ++ s := by
  intro he
  apply h
  have hd := congrArg String.data he
  rw [String.data_append, String.data_append] at hd
  have h1 : (p.data ++ q.data)[i]? = p.data[i]? := List.getElem?_append_left hp
  have h2 : (r.data ++ s.data)[i]? = r.data[i]? := List.getElem?_append_left hr
  rw [← h1, hd, h2]

lemma append_ne_of_ne_right (p u v : String) (h : u.data ≠ v.data) :
    p ++ u ≠ p ++ v := by
  intro he
  apply h
  have hd := congrArg String.data he
  rw [String.data_append, String.data_append] at hd
  exact List.append_cancel_left hd

lemma joinSep_ne (sep t : String) (l : List String)
    (hl : ∀ s ∈ l, ∀ r, s ++ r ≠ t) (hne : l ≠ []) : joinSep sep l ≠ t := by
  match l, hne with
  | [x], _ =>
    have hx := hl x (by simp) ""
    simpa [joinSep, String.append_empty] using hx
  | x :: y :: ys, _ =>
    have hx := hl x (by simp) (sep ++ joinSep sep (y :: ys))
    simpa [joinSep, String.append_assoc] using hx

lemma mem_ite_single {c : Prop} [Decidable c] {a b : String} :
    a ∈ (if c then [b] else []) ↔ c ∧ a = b := by
  split_ifs with h <;> simp [h]

lemma issue_append_ne_sentinel (w : Weather) (sw : SpaceWeather)
    (c : Conjunction) (l : Limits) :
    ∀ s ∈ explanationIssues w sw c l, ∀ r : String,
      s ++ r ≠ "All parameters within acceptable limits for launch" := by
  intro s hs r
  simp only [explanationIssues, List.mem_append, mem_ite_single] at hs
  rcases hs with (((((((⟨-, rfl⟩ | ⟨-, rfl⟩) | ⟨-, rfl⟩) | ⟨-, rfl⟩) | ⟨-, rfl⟩) |
    ⟨-, rfl⟩) | ⟨-, rfl⟩) | ⟨-, rfl⟩)
  · simp only [windIssue, String.append_assoc]
    exact str_append_ne _ _ _ 0 (by decide) (by decide)
  · simp only [precipIssue, String.append_assoc]
    exact str_append_ne _ _ _ 0 (by decide) (by decide)
  · simp only [ceilingIssue, String.append_assoc]
    exact str_append_ne _ _ _ 0 (by decide) (by decide)
  · simp only [tempHighIssue, String.append_assoc]
    exact str_append_ne _ _ _ 0 (by decide) (by decide)
  · simp only [tempLowIssue, String.append_assoc]
    exact str_append_ne _ _ _ 0 (by decide) (by decide)
  · simp only [kpIssue, String.append_assoc]
    exact str_append_ne _ _ _ 0 (by decide) (by decide)
  · simp only [stormIssue]
    exact str_append_ne _ _ _ 1 (by decide) (by decide)
  · simp only [conjIssue]
    exact str_append_ne _ _ _ 0 (by decide) (by decide)

/-- C5: the explanation is exactly the sentinel string when no condition
triggers and never the sentinel otherwise, and the citation list is exactly
the one-element nominal sentinel when no condition triggers and is never
empty. -/
theorem sentinel_behavior (w : Weather) (sw : SpaceWeather) (c : Conjunction)
    (l : Limits) (r : ℤ) :
    (explanationIssues w sw c l = [] →
      generate_explanation w sw c l r =
        "All parameters within acceptable limits for launch") ∧
    (explanationIssues w sw c l ≠ [] →
      generate_explanation w sw c l r ≠
        "All parameters within acceptable limits for launch") ∧
    (citationBase w sw c l = [] →
      get_rule_citations w sw c l = ["All parameters nominal"]) ∧
    get_rule_citations w sw c l ≠ [] := by
  refine ⟨fun h => ?_, fun h => ?_, fun h => ?_, ?_⟩
  · simp [generate_explanation, h]
  · simp only [generate_explanation]
    rw [if_neg h]
    exact joinSep_ne _ _ _ (issue_append_ne_sentinel w sw c l) h
  · simp [get_rule_citations, h]
  · simp only [get_rule_citations]
    split_ifs with h
    · simp
    · exact h

/-- Witness for C5 at a nominal input where nothing triggers. -/
theorem sentinel_behavior_witness :
    generate_explanation ⟨10, 0, 10000, 20⟩ ⟨2, false⟩ ⟨false, 0⟩
        ⟨30, 32/5, 1500, 35, -1⟩ 0 =
      "All parameters within acceptable limits for launch" ∧
    get_rule_citations ⟨10, 0, 10000, 20⟩ ⟨2, false⟩ ⟨false, 0⟩
        ⟨30, 32/5, 1500, 35, -1⟩ = ["All parameters nominal"] :=
  ⟨(sentinel_behavior ⟨10, 0, 10000, 20⟩ ⟨2, false⟩ ⟨false, 0⟩
      ⟨30, 32/5, 1500, 35, -1⟩ 0).1 (by norm_num [explanationIssues]),
   (sentinel_behavior ⟨10, 0, 10000, 20⟩ ⟨2, false⟩ ⟨false, 0⟩
      ⟨30, 32/5, 1500, 35, -1⟩ 0).2.2.1 (by norm_num [citationBase])⟩

/-- C4 counterexample: with wind 24 kn against a 30 kn limit the ratio is
exactly 0.8, so the claim demands a wind issue, but the code's strict
comparison reports none: the issue list is empty and the explanation is the
nominal sentinel. -/
theorem explanation_threshold_cex :
    (24 : ℚ) / 30 ≥ 0.8 ∧
    explanationIssues ⟨24, 0, 10000, 20⟩ ⟨2, false⟩ ⟨false, 0⟩
      ⟨30, 32/5, 1500, 35, -1⟩ = [] ∧
    generate_explanation ⟨24, 0, 10000, 20⟩ ⟨2, false⟩ ⟨false, 0⟩
        ⟨30, 32/5, 1500, 35, -1⟩ 0 =
      "All parameters within acceptable limits for launch" :=
  ⟨by norm_num, by norm_num [explanationIssues],
   by norm_num [generate_explanation, explanationIssues]⟩

/-- C4 amended: the explanation generator triggers each issue at the looser
thresholds taken strictly: a wind issue exactly when the wind ratio exceeds
0.8, a precipitation issue exactly when the precipitation ratio exceeds 0.5,
a temperature issue exactly when the temperature is strictly within 5 degrees
of either bound or beyond it, and a cloud-ceiling issue exactly when the
ceiling is below the site limit. -/
theorem explanation_triggers_strict (w : Weather) (sw : SpaceWeather)
    (c : Conjunction) (l : Limits)
    (hw0 : 0 < l.max_wind_kn) (hp0 : 0 < l.max_precipitation_mm) :
    (windIssue w l ∈ explanationIssues w sw c l ↔
      w.wind_speed_kn / l.max_wind_kn > 0.8) ∧
    (precipIssue w l ∈ explanationIssues w sw c l ↔
      w.precipitation_mm / l.max_precipitation_mm > 0.5) ∧
    ((tempHighIssue w ∈ explanationIssues w sw c l ∨
        tempLowIssue w ∈ explanationIssues w sw c l) ↔
      (l.max_temp_c - 5 < w.temperature_c ∨
        w.temperature_c < l.min_temp_c + 5)) ∧
    (ceilingIssue w l ∈ explanationIssues w sw c l ↔
      w.cloud_ceiling_ft < l.max_cloud_ceiling_ft) := by
  have hwp : windIssue w l ≠ precipIssue w l := by
    simp only [windIssue, precipIssue, String.append_assoc]
    exact str_ne_of_append _ _ _ _ 0 (by decide) (by decide) (by decide)
  have hwc : windIssue w l ≠ ceilingIssue w l := by
    simp only [windIssue, ceilingIssue, String.append_assoc]
    exact str_ne_of_append _ _ _ _ 0 (by decide) (by decide) (by decide)
  have hwh : windIssue w l ≠ tempHighIssue w := by
    simp only [windIssue, tempHighIssue, String.append_assoc]
    exact str_ne_of_append _ _ _ _ 0 (by decide) (by decide) (by decide)
  have hwl : windIssue w l ≠ tempLowIssue w := by
    simp only [windIssue, tempLowIssue, String.append_assoc]
    exact str_ne_of_append _ _ _ _ 0 (by decide) (by decide) (by decide)
  have hwk : windIssue w l ≠ kpIssue sw := by
    simp only [windIssue, kpIssue, String.append_assoc]
    exact str_ne_of_append _ _ _ _ 0 (by decide) (by decide) (by decide)
  have hws : windIssue w l ≠ stormIssue := by
    simp only [windIssue, stormIssue, String.append_assoc]
    exact str_append_ne _ _ _ 0 (by decide) (by decide)
  have hwj : windIssue w l ≠ conjIssue := by
    simp only [windIssue, conjIssue, String.append_assoc]
    exact str_append_ne _ _ _ 0 (by decide) (by decide)
  have hpc : precipIssue w l ≠ ceilingIssue w l := by
    simp only [precipIssue, ceilingIssue, String.append_assoc]
    exact str_ne_of_append _ _ _ _ 0 (by decide) (by decide) (by decide)
  have hph : precipIssue w l ≠ tempHighIssue w := by
    simp only [precipIssue, tempHighIssue, String.append_assoc]
    exact str_ne_of_append _ _ _ _ 0 (by decide) (by decide) (by decide)
  have hpl : precipIssue w l ≠ tempLowIssue w := by
    simp only [precipIssue, tempLowIssue, String.append_assoc]
    exact str_ne_of_append _ _ _ _ 0 (by decide) (by decide) (by decide)
  have hpk : precipIssue w l ≠ kpIssue sw := by
    simp only [precipIssue, kpIssue, String.append_assoc]
    exact str_ne_of_append _ _ _ _ 0 (by decide) (by decide) (by decide)
  have hps : precipIssue w l ≠ stormIssue := by
    simp only [precipIssue, stormIssue, String.append_assoc]
    exact str_append_ne _ _ _ 0 (by decide) (by decide)
  have hpj : precipIssue w l ≠ conjIssue := by
    simp only [precipIssue, conjIssue, String.append_assoc]
    exact str_append_ne _ _ _ 0 (by decide) (by decide)
  have hch : ceilingIssue w l ≠ tempHighIssue w := by
    simp only [ceilingIssue, tempHighIssue, String.append_assoc]
    exact str_ne_of_append _ _ _ _ 0 (by decide) (by decide) (by decide)
  have hcl : ceilingIssue w l ≠ tempLowIssue w := by
    simp only [ceilingIssue, tempLowIssue, String.append_assoc]
    exact str_ne_of_append _ _ _ _ 0 (by decide) (by decide) (by decide)
  have hck : ceilingIssue w l ≠ kpIssue sw := by
    simp only [ceilingIssue, kpIssue, String.append_assoc]
    exact str_ne_of_append _ _ _ _ 0 (by decide) (by decide) (by decide)
  have hcs : ceilingIssue w l ≠ stormIssue := by
    simp only [ceilingIssue, stormIssue, String.append_assoc]
    exact str_append_ne _ _ _ 0 (by decide) (by decide)
  have hcj : ceilingIssue w l ≠ conjIssue := by
    simp only [ceilingIssue, conjIssue, String.append_assoc]
    exact str_append_ne _ _ _ 0 (by decide) (by decide)
  have hhl : tempHighIssue w ≠ tempLowIssue w := by
    simp only [tempHighIssue, tempLowIssue]
    exact append_ne_of_ne_right _ _ _ (by decide)
  have hhk : tempHighIssue w ≠ kpIssue sw := by
    simp only [tempHighIssue, kpIssue, String.append_assoc]
    exact str_ne_of_append _ _ _ _ 0 (by decide) (by decide) (by decide)
  have hhs : tempHighIssue w ≠ stormIssue := by
    simp only [tempHighIssue, stormIssue, String.append_assoc]
    exact str_append_ne _ _ _ 0 (by decide) (by decide)
  have hhj : tempHighIssue w ≠ conjIssue := by
    simp only [tempHighIssue, conjIssue, String.append_assoc]
    exact str_append_ne _ _ _ 0 (by decide) (by decide)
  have hlk : tempLowIssue w ≠ kpIssue sw := by
    simp only [tempLowIssue, kpIssue, String.append_assoc]
    exact str_ne_of_append _ _ _ _ 0 (by decide) (by decide) (by decide)
  have hls : tempLowIssue w ≠ stormIssue := by
    simp only [tempLowIssue, stormIssue, String.append_assoc]
    exact str_append_ne _ _ _ 0 (by decide) (by decide)
  have hlj : tempLowIssue w ≠ conjIssue := by
    simp only [tempLowIssue, conjIssue, String.append_assoc]
    exact str_append_ne _ _ _ 0 (by decide) (by decide)
  refine ⟨?_, ?_, ?_, ?_⟩
  · simp only [explanationIssues, List.mem_append, mem_ite_single]
    simp [hwp, hwc, hwh, hwl, hwk, hws, hwj]
    rw [lt_div_iff₀ hw0]
    constructor <;> intro h <;> linarith
  · simp only [explanationIssues, List.mem_append, mem_ite_single]
    simp [hwp.symm, hpc, hph, hpl, hpk, hps, hpj]
    rw [lt_div_iff₀ hp0]
    constructor <;> intro h <;> linarith
  · simp only [explanationIssues, List.mem_append, mem_ite_single]
    simp [hwh.symm, hph.symm, hch.symm, hhl, hhk, hhs, hhj,
      hwl.symm, hpl.symm, hcl.symm, hhl.symm, hlk, hls, hlj]
  · simp only [explanationIssues, List.mem_append, mem_ite_single]
    simp [hwc.symm, hpc.symm, hch, hcl, hck, hcs, hcj]

/-- Witness for C4's amended statement: wind 25 kn against a 30 kn limit
(ratio above 0.8) does produce the wind issue. -/
theorem explanation_triggers_strict_witness :
    windIssue ⟨25, 0, 10000, 20⟩ ⟨30, 32/5, 1500, 35, -1⟩ ∈
      explanationIssues ⟨25, 0, 10000, 20⟩ ⟨2, false⟩ ⟨false, 0⟩
        ⟨30, 32/5, 1500, 35, -1⟩ :=
  (explanation_triggers_strict ⟨25, 0, 10000, 20⟩ ⟨2, false⟩ ⟨false, 0⟩
      ⟨30, 32/5, 1500, 35, -1⟩ (by norm_num) (by norm_num)).1.mpr (by norm_num)
